import Mathlib

/-!
Verification of the PDF text-extraction service (`src/main.py`) against its
natural-language specification.

Shallow embedding: the OCR provider (AWS Textract) is an external
collaborator, so each single-page OCR call is modelled by the
`TextractResponse` that the provider returns for that page's image.  A
document processed on an OCR path is therefore characterised by the list of
per-page provider responses (one per page, in document order, exactly as
`pdf_to_images` produces one image per page).  Python exceptions carrying an
HTTP status (`HTTPException`) become the `Except HTTPError` monad; Python
`str.strip()` becomes `pyStrip`; Python string truthiness becomes
comparison with `""`; Textract's float confidences are modelled exactly as
rationals.
-/

namespace AiExtraction

/-- Python `str.strip()`: remove whitespace from both ends.  Modelled on the
character-list representation of `String` (Lean's byte-position `String.trim`
computes the same characters but does not reduce in the kernel). -/
def pyStrip (s : String) : String :=
  ⟨((s.data.dropWhile Char.isWhitespace).reverse.dropWhile Char.isWhitespace).reverse⟩

/-- Python `str.lower()` (ASCII case mapping, which is all the handlers rely
on for the `".pdf"` suffix test). -/
def pyLower (s : String) : String := ⟨s.data.map Char.toLower⟩

/-- Python `str.endswith(suffix)`. -/
def pyEndsWith (s suffix : String) : Bool := suffix.data.isSuffixOf s.data

instance {ε α : Type} [DecidableEq ε] [DecidableEq α] : DecidableEq (Except ε α)
  | .ok a, .ok b => decidable_of_iff (a = b) (by simp)
  | .error a, .error b => decidable_of_iff (a = b) (by simp)
  | .ok _, .error _ => isFalse (fun h => Except.noConfusion h)
  | .error _, .ok _ => isFalse (fun h => Except.noConfusion h)

/-- One Textract `Block` from the provider's `Blocks` list: its
`BlockType` (`"LINE"`, `"WORD"`, or anything else, which the code discards),
`Text`, `Confidence` and `Geometry` (opaque, kept as a string). -/
structure Block where
  blockType : String
  text : String
  confidence : ℚ
  geometry : String
deriving DecidableEq, Repr

/-- Outcome of one `textract_client.detect_document_text` call:
a successful response with its `Blocks`, a `botocore` `ClientError`
carrying the provider's error code, or any other exception with its
message. -/
inductive TextractResponse where
  | success (blocks : List Block)
  | clientError (code : String)
  | otherError (msg : String)
deriving DecidableEq, Repr

/-- A FastAPI `HTTPException`: status code and detail message. -/
structure HTTPError where
  status : Nat
  detail : String
deriving DecidableEq, Repr

/-- A line or word entry as built by `textract_extract_text_with_structure`:
the dict `{'text': ..., 'confidence': ..., 'geometry': ...}`. -/
structure LineInfo where
  text : String
  confidence : ℚ
  geometry : String
deriving DecidableEq, Repr

/-- The structured per-page result returned by
`textract_extract_text_with_structure`. -/
structure PageResult where
  raw_text : String
  lines : List LineInfo
  words : List LineInfo
deriving DecidableEq, Repr

/-- The `lines` list built by the loop in
`textract_extract_text_with_structure`: blocks whose `BlockType` is
`"LINE"`, in the provider's order. -/
def linesOf (blocks : List Block) : List LineInfo :=
  (blocks.filter (fun b => b.blockType == "LINE")).map
    (fun b => ⟨b.text, b.confidence, b.geometry⟩)

/-- The `words` list built by the same loop: blocks whose `BlockType` is
`"WORD"`, in the provider's order. -/
def wordsOf (blocks : List Block) : List LineInfo :=
  (blocks.filter (fun b => b.blockType == "WORD")).map
    (fun b => ⟨b.text, b.confidence, b.geometry⟩)

/-- `textract_extract_text` (src/main.py lines 51-79): join the `LINE`
blocks' texts with newlines; map `ClientError` codes to HTTP statuses
(401 / 403 / 400 / 500), any other exception to 500. -/
def textract_extract_text (resp : TextractResponse) : Except HTTPError String :=
  match resp with
  | .success blocks =>
      .ok (String.intercalate "\n"
        ((blocks.filter (fun b => b.blockType == "LINE")).map (fun b => b.text)))
  | .clientError code =>
      if code == "UnrecognizedClientException" then
        .error ⟨401, "Invalid AWS credentials. Please check your access key and secret key."⟩
      else if code == "AccessDeniedException" then
        .error ⟨403, "AWS credentials don't have permission to access Textract."⟩
      else if code == "InvalidParameterException" then
        .error ⟨400, "Invalid parameters sent to Textract."⟩
      else
        .error ⟨500, "AWS Textract error: " ++ code⟩
  | .otherError msg =>
      .error ⟨500, "Text extraction failed: " ++ msg⟩

/-- `textract_extract_text_with_structure` (src/main.py lines 81-123):
build `lines` and `words`, set `raw_text` to the newline-join of the line
texts; map `ClientError` codes to 401 / 403 / 500 (note: no
`InvalidParameterException` branch here), any other exception to 500. -/
def textract_extract_text_with_structure (resp : TextractResponse) :
    Except HTTPError PageResult :=
  match resp with
  | .success blocks =>
      .ok { raw_text := String.intercalate "\n" ((linesOf blocks).map (fun l => l.text))
            lines := linesOf blocks
            words := wordsOf blocks }
  | .clientError code =>
      if code == "UnrecognizedClientException" then
        .error ⟨401, "Invalid AWS credentials."⟩
      else if code == "AccessDeniedException" then
        .error ⟨403, "Insufficient AWS permissions for Textract."⟩
      else
        .error ⟨500, "AWS Textract error: " ++ code⟩
  | .otherError msg =>
      .error ⟨500, "Text extraction failed: " ++ msg⟩

/-- The 400 error raised by every multipart handler when the lowercased
filename does not end in `".pdf"`. -/
def badInput : HTTPError := ⟨400, "Only PDF files are supported."⟩

/-- The OCR page loop shared by `extract_text` (label `""`) and the OCR
branch of `extract_text_with_fallback` (label `" (OCR)"`): for each page
image, run `textract_extract_text`; on error the exception propagates and
aborts the whole request; a page whose text strips to empty contributes no
block; otherwise the block `"--- Page n<label> ---\n" ++ stripped text` is
appended. `n` is the 1-based page counter of `enumerate(page_images, 1)`. -/
def ocrBlocks (label : String) : Nat → List TextractResponse → Except HTTPError (List String)
  | _, [] => .ok []
  | n, r :: rs =>
    match textract_extract_text r with
    | .error e => .error e
    | .ok t =>
      match ocrBlocks label (n+1) rs with
      | .error e => .error e
      | .ok rest =>
        if pyStrip t == "" then .ok rest
        else .ok (("--- Page " ++ toString n ++ label ++ " ---\n" ++ pyStrip t) :: rest)

/-- `extract_text` handler (src/main.py lines 125-150), as a function of the
uploaded filename and the per-page provider responses. -/
def extract_text (filename : String) (resps : List TextractResponse) :
    Except HTTPError String :=
  if !(pyEndsWith (pyLower filename) ".pdf") then .error badInput
  else Except.map (String.intercalate "\n\n") (ocrBlocks "" 1 resps)

/-- The document-level decision of `extract_text_with_fallback`
(src/main.py line 173): `pymupdf_text` is the list of stripped non-empty
page texts; the text layer is used iff that list is non-empty and some
entry is longer than 100 characters. -/
def usesTextLayer (pageTexts : List String) : Bool :=
  let pymupdf_text := (pageTexts.map pyStrip).filter (fun t => !(t == ""))
  !pymupdf_text.isEmpty && pymupdf_text.any (fun t => 100 < t.length)

/-- The text-layer page loop of `extract_text_with_fallback` (lines
175-176): `enumerate(pymupdf_text, 1)` over the already-filtered list of
stripped page texts. -/
def textLayerBlocks : Nat → List String → List String
  | _, [] => []
  | n, t :: ts =>
      ("--- Page " ++ toString n ++ " (Text Layer) ---\n" ++ t) :: textLayerBlocks (n+1) ts

/-- `extract_text_with_fallback` handler (src/main.py lines 152-191), as a
function of the filename, the per-page embedded (PyMuPDF) text of every
page, and the per-page provider responses used on the OCR branch. -/
def extract_text_with_fallback (filename : String) (pageTexts : List String)
    (resps : List TextractResponse) : Except HTTPError String :=
  if !(pyEndsWith (pyLower filename) ".pdf") then .error badInput
  else if usesTextLayer pageTexts then
    .ok (String.intercalate "\n\n"
      (textLayerBlocks 1 ((pageTexts.map pyStrip).filter (fun t => !(t == "")))))
  else Except.map (String.intercalate "\n\n") (ocrBlocks " (OCR)" 1 resps)

/-- The per-page statistics dict built by `extract_text_json` for a page
whose stripped `raw_text` is non-empty (src/main.py lines 238-244). -/
structure PageData where
  page_number : Nat
  text : String
  lines_count : Nat
  words_count : Nat
  average_confidence : ℚ
deriving DecidableEq, Repr

/-- The guarded per-page mean confidence of `extract_text_json`
(src/main.py line 243): `sum(confidences) / len(lines) if lines else 0`. -/
def average_confidence (lines : List LineInfo) : ℚ :=
  if !lines.isEmpty then ((lines.map (fun l => l.confidence)).sum) / (lines.length : ℚ)
  else 0

/-- The `pages_data` entry built for page `n` from its `PageResult`. -/
def mkPageData (n : Nat) (pr : PageResult) : PageData :=
  { page_number := n
    text := pyStrip pr.raw_text
    lines_count := pr.lines.length
    words_count := pr.words.length
    average_confidence := average_confidence pr.lines }

/-- The JSON body returned by `extract_text_json` (src/main.py
lines 249-255). -/
structure JsonBody where
  extracted_text : String
  pages : List PageData
  total_pages : Nat
  extraction_method : String
  text_blocks : List String
deriving DecidableEq, Repr

/-- The page loop of `extract_text_json` (src/main.py lines 234-245):
structured extraction per page; errors propagate; only pages whose stripped
`raw_text` is non-empty contribute a `pages_data` entry and a text block. -/
def jsonPagesLoop : Nat → List TextractResponse → Except HTTPError (List PageData × List String)
  | _, [] => .ok ([], [])
  | n, r :: rs =>
    match textract_extract_text_with_structure r with
    | .error e => .error e
    | .ok pr =>
      match jsonPagesLoop (n+1) rs with
      | .error e => .error e
      | .ok (pages, blocks) =>
        if pyStrip pr.raw_text == "" then .ok (pages, blocks)
        else .ok (mkPageData n pr :: pages, pyStrip pr.raw_text :: blocks)

/-- `extract_text_json` handler (src/main.py lines 219-260). -/
def extract_text_json (filename : String) (resps : List TextractResponse) :
    Except HTTPError JsonBody :=
  if !(pyEndsWith (pyLower filename) ".pdf") then .error badInput
  else
    match jsonPagesLoop 1 resps with
    | .error e => .error e
    | .ok pb =>
      .ok { extracted_text := String.intercalate "\n\n" pb.2
            pages := pb.1
            total_pages := pb.1.length
            extraction_method := "AWS Textract OCR"
            text_blocks := pb.2 }

/-- One entry of `detailed_results` in `extract_text_detailed`
(src/main.py lines 279-284). -/
structure DetailedPage where
  page_number : Nat
  raw_text : String
  lines : List LineInfo
  words : List LineInfo
deriving DecidableEq, Repr

/-- The JSON body returned by `extract_text_detailed` (src/main.py
lines 288-292). -/
structure DetailedBody where
  pages : List DetailedPage
  total_pages : Nat
  extraction_method : String
deriving DecidableEq, Repr

/-- The page loop of `extract_text_detailed` (src/main.py lines 276-284):
every page contributes an entry, blank or not. -/
def detailedLoop : Nat → List TextractResponse → Except HTTPError (List DetailedPage)
  | _, [] => .ok []
  | n, r :: rs =>
    match textract_extract_text_with_structure r with
    | .error e => .error e
    | .ok pr =>
      Except.map (fun rest => ⟨n, pr.raw_text, pr.lines, pr.words⟩ :: rest)
        (detailedLoop (n+1) rs)

/-- `extract_text_detailed` handler (src/main.py lines 262-297). -/
def extract_text_detailed (filename : String) (resps : List TextractResponse) :
    Except HTTPError DetailedBody :=
  if !(pyEndsWith (pyLower filename) ".pdf") then .error badInput
  else
    Except.map (fun pages => ⟨pages, pages.length, "AWS Textract with structure analysis"⟩)
      (detailedLoop 1 resps)

/-- The `{status, message}` body returned by `health_textract`. -/
structure HealthBody where
  status : String
  message : String
deriving DecidableEq, Repr

/-- `health_textract` handler (src/main.py lines 316-338), as a function of
the provider's response to the fixed 1x1 test image. -/
def health_textract (resp : TextractResponse) : HealthBody :=
  match resp with
  | .success _ => ⟨"healthy", "AWS Textract connection successful"⟩
  | .clientError code =>
      if code == "UnrecognizedClientException" then
        ⟨"error", "Invalid AWS credentials"⟩
      else if code == "AccessDeniedException" then
        ⟨"error", "AWS credentials lack Textract permissions"⟩
      else if code == "InvalidParameterException" || code == "UnsupportedDocumentException" then
        ⟨"healthy", "AWS Textract connection working (expected parameter error with test data)"⟩
      else
        ⟨"error", "Textract connection issue: " ++ code⟩
  | .otherError msg =>
      ⟨"error", "Connection error: " ++ msg⟩

/-! ## Specification-side assembly functions and helper lemmas -/

/-- `enumerate(xs, n)`: the elements of `xs` paired with their indices
counting from `n`. -/
def enumFrom : Nat → List String → List (Nat × String)
  | _, [] => []
  | n, t :: ts => (n, t) :: enumFrom (n+1) ts

/-- The block list `ocrBlocks` produces when every page's OCR call
succeeds, as a function of the per-page texts alone. -/
def ocrBlocksSpec (label : String) : Nat → List String → List String
  | _, [] => []
  | n, t :: ts =>
    if pyStrip t == "" then ocrBlocksSpec label (n+1) ts
    else ("--- Page " ++ toString n ++ label ++ " ---\n" ++ pyStrip t) :: ocrBlocksSpec label (n+1) ts

/-- Pointwise success of the plain OCR function on a response list, with
the texts it returns. -/
abbrev AllOk (resps : List TextractResponse) (ts : List String) : Prop :=
  List.Forall₂ (fun r t => textract_extract_text r = Except.ok t) resps ts

/-- Pointwise success of the structured OCR function on a response list,
with the `PageResult`s it returns. -/
abbrev AllOkStructured (resps : List TextractResponse) (prs : List PageResult) : Prop :=
  List.Forall₂ (fun r pr => textract_extract_text_with_structure r = Except.ok pr) resps prs

/-- The `(pages_data, all_text_blocks)` pair `jsonPagesLoop` produces when
every page's structured OCR call succeeds, as a function of the per-page
`PageResult`s alone. -/
def jsonPagesSpec : Nat → List PageResult → List PageData × List String
  | _, [] => ([], [])
  | n, pr :: prs =>
    let rest := jsonPagesSpec (n+1) prs
    if pyStrip pr.raw_text == "" then rest
    else (mkPageData n pr :: rest.1, pyStrip pr.raw_text :: rest.2)

/-- The `detailed_results` list `detailedLoop` produces when every page's
structured OCR call succeeds. -/
def detailedSpec : Nat → List PageResult → List DetailedPage
  | _, [] => []
  | n, pr :: prs => ⟨n, pr.raw_text, pr.lines, pr.words⟩ :: detailedSpec (n+1) prs

/-- A string of 101 space characters: raw embedded page text that is
non-empty and longer than 100 characters but strips to empty. -/
def spaces101 : String := String.mk (List.replicate 101 ' ')

/-- A string of 150 letters: embedded page text comfortably above the
100-character threshold. -/
def aChars150 : String := String.mk (List.replicate 150 'a')

lemma ocrBlocks_ok (label : String) :
    ∀ {resps : List TextractResponse} {ts : List String}, AllOk resps ts →
      ∀ n, ocrBlocks label n resps = .ok (ocrBlocksSpec label n ts) := by
  intro resps ts hall
  induction hall with
  | nil => intro n; rfl
  | cons hrt _ ih =>
      intro n
      simp only [ocrBlocks, hrt, ih (n+1), ocrBlocksSpec]
      split <;> rfl

lemma ocrBlocksSpec_eq_filterMap (label : String) :
    ∀ (ts : List String) (n : Nat),
      ocrBlocksSpec label n ts =
        ((enumFrom n ts).filter (fun p => !(pyStrip p.2 == ""))).map
          (fun p => "--- Page " ++ toString p.1 ++ label ++ " ---\n" ++ pyStrip p.2) := by
  intro ts
  induction ts with
  | nil => intro n; rfl
  | cons t ts ih =>
      intro n
      by_cases h : (pyStrip t == "") = true
      · simp [ocrBlocksSpec, enumFrom, List.filter_cons, h, ih (n+1)]
      · have h' : (pyStrip t == "") = false := by simpa using h
        simp [ocrBlocksSpec, enumFrom, List.filter_cons, h', ih (n+1)]

lemma ocrBlocks_error (label : String) :
    ∀ {resps : List TextractResponse} (i : Nat) {r : TextractResponse} {e : HTTPError},
      resps.get? i = some r → textract_extract_text r = .error e →
      (∀ j, j < i → ∀ r', resps.get? j = some r' →
        ∃ t, textract_extract_text r' = Except.ok t) →
      ∀ n, ocrBlocks label n resps = .error e := by
  intro resps
  induction resps with
  | nil => intro i r e hi; simp [List.get?] at hi
  | cons r0 rs ih =>
      intro i r e hi hr hfirst n
      cases i with
      | zero =>
          simp only [List.get?] at hi
          cases hi
          simp [ocrBlocks, hr]
      | succ i' =>
          obtain ⟨t0, ht0⟩ := hfirst 0 (Nat.succ_pos i') r0 rfl
          have hrec := ih i' hi hr
            (fun j hj r' hj' => hfirst (j+1) (Nat.succ_lt_succ hj) r' hj') (n+1)
          simp [ocrBlocks, ht0, hrec]

lemma textLayerBlocks_length : ∀ (ts : List String) (n : Nat),
    (textLayerBlocks n ts).length = ts.length := by
  intro ts
  induction ts with
  | nil => intro n; rfl
  | cons t ts ih => intro n; simp [textLayerBlocks, ih]

lemma textLayerBlocks_get? : ∀ (ts : List String) (n k : Nat),
    (textLayerBlocks n ts).get? k =
      (ts.get? k).map (fun t => "--- Page " ++ toString (n + k) ++ " (Text Layer) ---\n" ++ t) := by
  intro ts
  induction ts with
  | nil => intro n k; rfl
  | cons t ts ih =>
      intro n k
      cases k with
      | zero => rfl
      | succ k' =>
          simp only [textLayerBlocks, List.get?, ih (n+1) k']
          have : n + (k' + 1) = n + 1 + k' := by omega
          rw [this]

lemma usesTextLayer_iff (pageTexts : List String) :
    usesTextLayer pageTexts = true ↔ ∃ t ∈ pageTexts, 100 < (pyStrip t).length := by
  unfold usesTextLayer
  constructor
  · intro h
    rw [Bool.and_eq_true] at h
    obtain ⟨-, hany⟩ := h
    rw [List.any_eq_true] at hany
    obtain ⟨x, hx, hlen⟩ := hany
    rw [List.mem_filter] at hx
    obtain ⟨hxm, -⟩ := hx
    rw [List.mem_map] at hxm
    obtain ⟨t, ht, rfl⟩ := hxm
    exact ⟨t, ht, by simpa using hlen⟩
  · rintro ⟨t, ht, hlen⟩
    have hne : pyStrip t ≠ "" := by
      intro h
      rw [h] at hlen
      simp [String.length] at hlen
    have hmem : pyStrip t ∈ (pageTexts.map pyStrip).filter (fun t => !(t == "")) :=
      List.mem_filter.mpr ⟨List.mem_map_of_mem _ ht, by simpa using hne⟩
    rw [Bool.and_eq_true]
    constructor
    · simp only [Bool.not_eq_true']
      exact List.isEmpty_eq_false.mpr (List.ne_nil_of_mem hmem)
    · rw [List.any_eq_true]
      exact ⟨pyStrip t, hmem, by simpa using hlen⟩

lemma ne_of_data_head {a b : String} (c c' : Char) (ta tb : List Char)
    (ha : a.data = c :: ta) (hb : b.data = c' :: tb) (hcc : c ≠ c')
    (suffix : String) : a ++ suffix ≠ b := by
  intro h
  have hd := congrArg String.data h
  rw [String.data_append, ha, hb, List.cons_append] at hd
  injection hd with h1 _
  exact hcc h1

lemma textract_extract_text_error_detail {r : TextractResponse} {e : HTTPError}
    (h : textract_extract_text r = .error e) :
    e.detail ≠ "Only PDF files are supported." := by
  cases r with
  | success blocks => simp [textract_extract_text] at h
  | clientError code =>
      simp only [textract_extract_text] at h
      split at h
      · cases h; decide
      · split at h
        · cases h; decide
        · split at h
          · cases h; decide
          · cases h
            exact ne_of_data_head 'A' 'O' ("WS Textract error: ").data
              ("nly PDF files are supported.").data (by decide) (by decide)
              (by decide) code
  | otherError msg =>
      simp only [textract_extract_text] at h
      cases h
      exact ne_of_data_head 'T' 'O' ("ext extraction failed: ").data
        ("nly PDF files are supported.").data (by decide) (by decide) (by decide) msg

lemma textract_structure_error_status {r : TextractResponse} {e : HTTPError}
    (h : textract_extract_text_with_structure r = .error e) : e.status ≠ 400 := by
  cases r with
  | success blocks => simp [textract_extract_text_with_structure] at h
  | clientError code =>
      simp only [textract_extract_text_with_structure] at h
      split at h
      · cases h; decide
      · split at h
        · cases h; decide
        · cases h
          show (500 : Nat) ≠ 400
          decide
  | otherError msg =>
      simp only [textract_extract_text_with_structure] at h
      cases h
      show (500 : Nat) ≠ 400
      decide

lemma ocrBlocks_error_detail (label : String) :
    ∀ {resps : List TextractResponse} {n : Nat} {e : HTTPError},
      ocrBlocks label n resps = .error e →
      e.detail ≠ "Only PDF files are supported." := by
  intro resps
  induction resps with
  | nil => intro n e h; simp [ocrBlocks] at h
  | cons r rs ih =>
      intro n e h
      simp only [ocrBlocks] at h
      cases hr : textract_extract_text r with
      | error e' =>
          simp only [hr] at h
          cases h
          exact textract_extract_text_error_detail hr
      | ok t =>
          simp only [hr] at h
          cases hrec : ocrBlocks label (n+1) rs with
          | error e' =>
              simp only [hrec] at h
              cases h
              exact ih hrec
          | ok rest =>
              simp only [hrec] at h
              by_cases hb : (pyStrip t == "") = true
              · rw [if_pos hb] at h
                exact Except.noConfusion h
              · rw [if_neg hb] at h
                exact Except.noConfusion h

lemma jsonPagesLoop_ok :
    ∀ {resps : List TextractResponse} {prs : List PageResult},
      AllOkStructured resps prs →
      ∀ n, jsonPagesLoop n resps = .ok (jsonPagesSpec n prs) := by
  intro resps prs hall
  induction hall with
  | nil => intro n; rfl
  | cons hrt _ ih =>
      intro n
      simp only [jsonPagesLoop, hrt, ih (n+1), jsonPagesSpec]
      split <;> rfl

lemma detailedLoop_ok :
    ∀ {resps : List TextractResponse} {prs : List PageResult},
      AllOkStructured resps prs →
      ∀ n, detailedLoop n resps = .ok (detailedSpec n prs) := by
  intro resps prs hall
  induction hall with
  | nil => intro n; rfl
  | cons hrt _ ih =>
      intro n
      simp only [detailedLoop, hrt, ih (n+1), detailedSpec, Except.map]

lemma detailedSpec_length : ∀ (prs : List PageResult) (n : Nat),
    (detailedSpec n prs).length = prs.length := by
  intro prs
  induction prs with
  | nil => intro n; rfl
  | cons pr prs ih => intro n; simp [detailedSpec, ih]

lemma detailedSpec_get? : ∀ (prs : List PageResult) (n k : Nat),
    (detailedSpec n prs).get? k =
      (prs.get? k).map (fun pr => ⟨n + k, pr.raw_text, pr.lines, pr.words⟩) := by
  intro prs
  induction prs with
  | nil => intro n k; rfl
  | cons pr prs ih =>
      intro n k
      cases k with
      | zero => rfl
      | succ k' =>
          simp only [detailedSpec, List.get?, ih (n+1) k']
          have : n + (k' + 1) = n + 1 + k' := by omega
          rw [this]

lemma jsonPagesSpec_fst_length : ∀ (prs : List PageResult) (n : Nat),
    (jsonPagesSpec n prs).1.length =
      ((prs.map (fun pr => pyStrip pr.raw_text)).filter (fun t => !(t == ""))).length := by
  intro prs
  induction prs with
  | nil => intro n; rfl
  | cons pr prs ih =>
      intro n
      by_cases h : (pyStrip pr.raw_text == "") = true
      · have h2 : (!(pyStrip pr.raw_text == "")) = false := by simp [h]
        simp [jsonPagesSpec, h, List.filter_cons, h2, ih (n+1)]
      · have h' : (pyStrip pr.raw_text == "") = false := by simpa using h
        have h2 : (!(pyStrip pr.raw_text == "")) = true := by simp [h']
        simp [jsonPagesSpec, h', List.filter_cons, h2, ih (n+1)]

lemma jsonPagesLoop_error_status :
    ∀ {resps : List TextractResponse} {n : Nat} {e : HTTPError},
      jsonPagesLoop n resps = .error e → e.status ≠ 400 := by
  intro resps
  induction resps with
  | nil => intro n e h; simp [jsonPagesLoop] at h
  | cons r rs ih =>
      intro n e h
      simp only [jsonPagesLoop] at h
      cases hr : textract_extract_text_with_structure r with
      | error e' =>
          simp only [hr] at h
          cases h
          exact textract_structure_error_status hr
      | ok pr =>
          simp only [hr] at h
          cases hrec : jsonPagesLoop (n+1) rs with
          | error e' =>
              simp only [hrec] at h
              cases h
              exact ih hrec
          | ok pb =>
              simp only [hrec] at h
              by_cases hb : (pyStrip pr.raw_text == "") = true
              · rw [if_pos hb] at h
                exact Except.noConfusion h
              · rw [if_neg hb] at h
                exact Except.noConfusion h

lemma detailedLoop_error_status :
    ∀ {resps : List TextractResponse} {n : Nat} {e : HTTPError},
      detailedLoop n resps = .error e → e.status ≠ 400 := by
  intro resps
  induction resps with
  | nil => intro n e h; simp [detailedLoop] at h
  | cons r rs ih =>
      intro n e h
      simp only [detailedLoop] at h
      cases hr : textract_extract_text_with_structure r with
      | error e' =>
          simp only [hr] at h
          cases h
          exact textract_structure_error_status hr
      | ok pr =>
          simp only [hr] at h
          cases hrec : detailedLoop (n+1) rs with
          | error e' =>
              simp only [hrec, Except.map] at h
              cases h
              exact ih hrec
          | ok rest =>
              simp only [hrec, Except.map] at h
              exact Except.noConfusion h

/-! ## Claim theorems -/

/-- C6: for every provider OCR response, the structured extraction
function's `PageResult` has `raw_text` equal to the newline-join of its
`lines`' texts, in the provider's returned order, and the plain extraction
function returns exactly that same newline-joined string. -/
theorem c6_raw_text_newline_join (blocks : List Block) :
    ∃ pr : PageResult,
      textract_extract_text_with_structure (.success blocks) = .ok pr ∧
      pr.raw_text = String.intercalate "\n" (pr.lines.map (fun l => l.text)) ∧
      textract_extract_text (.success blocks) = .ok pr.raw_text := by
  refine ⟨_, rfl, rfl, ?_⟩
  simp only [textract_extract_text, textract_extract_text_with_structure, linesOf,
    List.map_map]
  rfl

/-- C7: the per-page mean confidence used by `/extract-text-json/` is the
arithmetic mean of the page's line confidences when the page has at least
one line and exactly `0` when it has no lines (the division is guarded, so
no division error can arise), and the page entry built by the handler
carries exactly this value. -/
theorem c7_mean_confidence_guarded (lines : List LineInfo) (n : Nat) (pr : PageResult)
    (h : lines ≠ []) :
    average_confidence lines =
      ((lines.map (fun l => l.confidence)).sum) / (lines.length : ℚ) ∧
    average_confidence [] = 0 ∧
    (mkPageData n pr).average_confidence = average_confidence pr.lines := by
  have hfe : lines.isEmpty = false := List.isEmpty_eq_false.mpr h
  exact ⟨by simp [average_confidence, hfe], rfl, rfl⟩

theorem c7_mean_confidence_guarded_witness :
    ([(⟨"hi", 90, "g"⟩ : LineInfo)] ≠ []) ∧
    (average_confidence [(⟨"hi", 90, "g"⟩ : LineInfo)] =
        (([(⟨"hi", 90, "g"⟩ : LineInfo)].map (fun l => l.confidence)).sum) /
          (([(⟨"hi", 90, "g"⟩ : LineInfo)].length : ℚ)) ∧
      average_confidence [] = 0 ∧
      (mkPageData 1 ⟨"", [], []⟩).average_confidence = average_confidence (⟨"", [], []⟩ : PageResult).lines) :=
  ⟨by decide, c7_mean_confidence_guarded [⟨"hi", 90, "g"⟩] 1 ⟨"", [], []⟩ (by decide)⟩

/-- C8: the health check reports `healthy` on a successful provider call
and whenever the provider returns a parameter / unsupported-document class
error, and reports an `error` status for credential errors, permission
errors, and every other provider failure, including non-`ClientError`
exceptions. -/
theorem c8_health_check (code : String) (blocks : List Block) (msg : String)
    (hcred : code ≠ "UnrecognizedClientException")
    (hperm : code ≠ "AccessDeniedException")
    (hpar : code ≠ "InvalidParameterException")
    (huns : code ≠ "UnsupportedDocumentException") :
    (health_textract (.success blocks)).status = "healthy" ∧
    (health_textract (.clientError "InvalidParameterException")).status = "healthy" ∧
    (health_textract (.clientError "UnsupportedDocumentException")).status = "healthy" ∧
    (health_textract (.clientError "UnrecognizedClientException")).status = "error" ∧
    (health_textract (.clientError "AccessDeniedException")).status = "error" ∧
    (health_textract (.clientError code)).status = "error" ∧
    (health_textract (.otherError msg)).status = "error" := by
  refine ⟨rfl, by decide, by decide, by decide, by decide, ?_, rfl⟩
  simp [health_textract, beq_eq_false_iff_ne.mpr hcred, beq_eq_false_iff_ne.mpr hperm,
    beq_eq_false_iff_ne.mpr hpar, beq_eq_false_iff_ne.mpr huns]

theorem c8_health_check_witness :
    (health_textract (.clientError "ThrottlingException")).status = "error" :=
  (c8_health_check "ThrottlingException" [] "x" (by decide) (by decide) (by decide)
    (by decide)).2.2.2.2.2.1

/-- C3 counterexample: on the provider error kind `InvalidParameterException`
(invalid input parameters) the plain extraction function raises status 400
as the claim states, but the structured extraction function raises
status 500, not 400 — the stated mapping does not hold for both
functions. -/
theorem c3_counterexample :
    textract_extract_text (.clientError "InvalidParameterException") =
      .error ⟨400, "Invalid parameters sent to Textract."⟩ ∧
    textract_extract_text_with_structure (.clientError "InvalidParameterException") =
      .error ⟨500, "AWS Textract error: InvalidParameterException"⟩ :=
  ⟨by decide, by decide⟩

/-- C3 (amended): the plain extraction function maps invalid credentials to
401, permission denial to 403, invalid parameters to 400 and every other
provider error kind to 500 with the provider's error code in the message;
the structured extraction function maps invalid credentials to 401 and
permission denial to 403, but every other provider error kind — including
`InvalidParameterException` — to 500 with the code in the message. -/
theorem c3_amended_error_mapping (code : String)
    (h1 : code ≠ "UnrecognizedClientException")
    (h2 : code ≠ "AccessDeniedException")
    (h3 : code ≠ "InvalidParameterException") :
    textract_extract_text (.clientError "UnrecognizedClientException") =
      .error ⟨401, "Invalid AWS credentials. Please check your access key and secret key."⟩ ∧
    textract_extract_text (.clientError "AccessDeniedException") =
      .error ⟨403, "AWS credentials don't have permission to access Textract."⟩ ∧
    textract_extract_text (.clientError "InvalidParameterException") =
      .error ⟨400, "Invalid parameters sent to Textract."⟩ ∧
    textract_extract_text (.clientError code) =
      .error ⟨500, "AWS Textract error: " ++ code⟩ ∧
    textract_extract_text_with_structure (.clientError "UnrecognizedClientException") =
      .error ⟨401, "Invalid AWS credentials."⟩ ∧
    textract_extract_text_with_structure (.clientError "AccessDeniedException") =
      .error ⟨403, "Insufficient AWS permissions for Textract."⟩ ∧
    textract_extract_text_with_structure (.clientError "InvalidParameterException") =
      .error ⟨500, "AWS Textract error: InvalidParameterException"⟩ ∧
    textract_extract_text_with_structure (.clientError code) =
      .error ⟨500, "AWS Textract error: " ++ code⟩ := by
  refine ⟨by decide, by decide, by decide, ?_, by decide, by decide, by decide, ?_⟩
  · simp [textract_extract_text, beq_eq_false_iff_ne.mpr h1, beq_eq_false_iff_ne.mpr h2,
      beq_eq_false_iff_ne.mpr h3]
  · simp [textract_extract_text_with_structure, beq_eq_false_iff_ne.mpr h1,
      beq_eq_false_iff_ne.mpr h2]

theorem c3_amended_error_mapping_witness :
    textract_extract_text (.clientError "ThrottlingException") =
      .error ⟨500, "AWS Textract error: ThrottlingException"⟩ ∧
    textract_extract_text_with_structure (.clientError "ThrottlingException") =
      .error ⟨500, "AWS Textract error: ThrottlingException"⟩ := by
  have h := c3_amended_error_mapping "ThrottlingException" (by decide) (by decide) (by decide)
  exact ⟨h.2.2.2.1, h.2.2.2.2.2.2.2⟩

set_option maxRecDepth 100000 in
/-- C1 counterexample: a 1-page document whose embedded text is 101 space
characters.  The page's embedded text is non-empty and longer than 100
characters, so the claim requires the text-layer path; the handler instead
classifies the document as image-based and returns the OCR output (note the
`(OCR)` page label). -/
theorem c1_counterexample :
    (∃ t ∈ [spaces101], t ≠ "") ∧
    (∃ t ∈ [spaces101], 100 < t.length) ∧
    usesTextLayer [spaces101] = false ∧
    extract_text_with_fallback "scan.pdf" [spaces101]
        [.success [⟨"LINE", "SCANNED", 99, "g"⟩]] =
      .ok ("--- Page 1 (OCR) ---\nSCANNED") :=
  ⟨⟨spaces101, by simp, by decide⟩, ⟨spaces101, by simp, by decide⟩, by decide, by decide⟩

/-- C1 (amended): the handler selects the text-layer path for every page
if and only if at least one page's embedded text is non-empty after
stripping leading/trailing whitespace AND at least one page's stripped
embedded text is longer than 100 characters; otherwise it classifies the
document as image-based and runs OCR on every page.  When every page's text
layer is empty it always selects the OCR path. -/
theorem c1_amended_decision_rule (filename : String) (pageTexts : List String)
    (resps : List TextractResponse)
    (hpdf : pyEndsWith (pyLower filename) ".pdf" = true) :
    (usesTextLayer pageTexts = true ↔
      (∃ t ∈ pageTexts, pyStrip t ≠ "") ∧ (∃ t ∈ pageTexts, 100 < (pyStrip t).length)) ∧
    (usesTextLayer pageTexts = true →
      extract_text_with_fallback filename pageTexts resps =
        .ok (String.intercalate "\n\n"
          (textLayerBlocks 1 ((pageTexts.map pyStrip).filter (fun t => !(t == "")))))) ∧
    (usesTextLayer pageTexts = false →
      extract_text_with_fallback filename pageTexts resps =
        Except.map (String.intercalate "\n\n") (ocrBlocks " (OCR)" 1 resps)) ∧
    ((∀ t ∈ pageTexts, t = "") → usesTextLayer pageTexts = false) := by
  refine ⟨?_, ?_, ?_, ?_⟩
  · rw [usesTextLayer_iff]
    constructor
    · rintro ⟨t, ht, hlen⟩
      refine ⟨⟨t, ht, ?_⟩, ⟨t, ht, hlen⟩⟩
      intro hc
      rw [hc] at hlen
      exact absurd hlen (by decide)
    · rintro ⟨-, h⟩
      exact h
  · intro htl
    simp [extract_text_with_fallback, hpdf, htl]
  · intro htl
    simp [extract_text_with_fallback, hpdf, htl]
  · intro hall
    rw [Bool.eq_false_iff, Ne, usesTextLayer_iff]
    rintro ⟨t, ht, hlen⟩
    rw [hall t ht] at hlen
    exact absurd hlen (by decide)

theorem c1_amended_decision_rule_witness :
    extract_text_with_fallback "x.pdf" ["hi"] [] =
      Except.map (String.intercalate "\n\n") (ocrBlocks " (OCR)" 1 []) :=
  (c1_amended_decision_rule "x.pdf" ["hi"] [] (by decide)).2.2.1 (by decide)

set_option maxRecDepth 400000 in
/-- C2 counterexample: a 2-page document whose first page is blank and whose
second page carries 150 characters of embedded text.  The text-layer output
labels that text as "Page 1", and no block labeled "Page 2" exists anywhere
in the emitted block list, although the text sits at 1-based document
position 2 — the label carries the position among non-blank pages, not the
original document index. -/
theorem c2_counterexample :
    extract_text_with_fallback "doc.pdf" ["", aChars150] [] =
      .ok ("--- Page 1 (Text Layer) ---\n" ++ aChars150) ∧
    ["", aChars150].get? 1 = some aChars150 ∧
    pyStrip aChars150 ≠ "" ∧
    textLayerBlocks 1 (([("" : String), aChars150].map pyStrip).filter (fun t => !(t == ""))) =
      [("--- Page 1 (Text Layer) ---\n" ++ aChars150)] ∧
    ("--- Page 2 (Text Layer) ---\n" ++ aChars150) ∉
      textLayerBlocks 1 (([("" : String), aChars150].map pyStrip).filter (fun t => !(t == ""))) :=
  ⟨by decide, by decide, by decide, by decide, by decide⟩

/-- C2 (amended): on the text-layer path the k-th emitted block (1-based)
is labeled "Page k (Text Layer)" and contains the k-th entry of the list of
non-blank stripped page texts — the label carries the page's 1-based
position among the pages with non-whitespace embedded text, not its
original document index.  For the claim's 2-page example (page 1 carries
the text, page 2 is blank) the two numberings agree, so the output is
exactly one "Page 1 (Text Layer)" block. -/
theorem c2_amended_page_labels (filename : String) (pageTexts : List String)
    (resps : List TextractResponse) (k : Nat)
    (hpdf : pyEndsWith (pyLower filename) ".pdf" = true)
    (htl : usesTextLayer pageTexts = true) :
    ∃ blocks : List String,
      extract_text_with_fallback filename pageTexts resps =
        .ok (String.intercalate "\n\n" blocks) ∧
      blocks.length = ((pageTexts.map pyStrip).filter (fun t => !(t == ""))).length ∧
      blocks.get? k =
        (((pageTexts.map pyStrip).filter (fun t => !(t == ""))).get? k).map
          (fun t => "--- Page " ++ toString (k + 1) ++ " (Text Layer) ---\n" ++ t) := by
  refine ⟨textLayerBlocks 1 ((pageTexts.map pyStrip).filter (fun t => !(t == ""))), ?_, ?_, ?_⟩
  · simp [extract_text_with_fallback, hpdf, htl]
  · exact textLayerBlocks_length _ _
  · rw [textLayerBlocks_get?]
    have h1k : 1 + k = k + 1 := by omega
    rw [h1k]

set_option maxRecDepth 400000 in
theorem c2_amended_page_labels_witness :
    ∃ blocks : List String,
      extract_text_with_fallback "x.pdf" [aChars150, ""] [] =
        .ok (String.intercalate "\n\n" blocks) ∧
      blocks.length = (([aChars150, ("" : String)].map pyStrip).filter (fun t => !(t == ""))).length ∧
      blocks.get? 0 =
        ((([aChars150, ("" : String)].map pyStrip).filter (fun t => !(t == ""))).get? 0).map
          (fun t => "--- Page " ++ toString (0 + 1) ++ " (Text Layer) ---\n" ++ t) :=
  c2_amended_page_labels "x.pdf" [aChars150, ""] [] 0 (by decide) (by decide)

/-- C4: on both OCR paths, if the OCR call fails on some page (all earlier
pages having succeeded), the whole extraction returns exactly that page's
error — no partial-document result is ever returned, since the result is an
error and in particular never a success carrying text from earlier pages. -/
theorem c4_ocr_failure_aborts (filename : String) (resps : List TextractResponse)
    (pageTexts : List String) (i : Nat) (r : TextractResponse) (e : HTTPError)
    (hpdf : pyEndsWith (pyLower filename) ".pdf" = true)
    (hi : resps.get? i = some r)
    (hr : textract_extract_text r = .error e)
    (hfirst : ∀ j, j < i → ∀ r', resps.get? j = some r' →
      ∃ t, textract_extract_text r' = Except.ok t) :
    extract_text filename resps = .error e ∧
    (usesTextLayer pageTexts = false →
      extract_text_with_fallback filename pageTexts resps = .error e) ∧
    (∀ s, extract_text filename resps ≠ .ok s) ∧
    (usesTextLayer pageTexts = false →
      ∀ s, extract_text_with_fallback filename pageTexts resps ≠ .ok s) := by
  have hblk := ocrBlocks_error "" i hi hr hfirst 1
  have hblk2 := ocrBlocks_error " (OCR)" i hi hr hfirst 1
  have h1 : extract_text filename resps = .error e := by
    simp [extract_text, hpdf, hblk, Except.map]
  have h2 : usesTextLayer pageTexts = false →
      extract_text_with_fallback filename pageTexts resps = .error e := by
    intro hf
    simp [extract_text_with_fallback, hpdf, hf, hblk2, Except.map]
  refine ⟨h1, h2, ?_, ?_⟩
  · intro s hc
    rw [h1] at hc
    exact Except.noConfusion hc
  · intro hf s hc
    rw [h2 hf] at hc
    exact Except.noConfusion hc

theorem c4_ocr_failure_aborts_witness :
    extract_text "x.pdf" [.success [⟨"LINE", "FIRST PAGE", 99, "g"⟩],
        .clientError "InternalServerError"] =
      .error ⟨500, "AWS Textract error: InternalServerError"⟩ :=
  (c4_ocr_failure_aborts "x.pdf"
    [.success [⟨"LINE", "FIRST PAGE", 99, "g"⟩], .clientError "InternalServerError"] [] 1
    (.clientError "InternalServerError") ⟨500, "AWS Textract error: InternalServerError"⟩
    (by decide) rfl (by decide)
    (by
      intro j hj r' hj'
      interval_cases j
      cases Option.some.inj hj'
      exact ⟨"FIRST PAGE", by decide⟩)).1

/-- C5: on every extraction path a page whose resulting text is empty or
whitespace-only contributes no block and no placeholder to the output, and
the remaining blocks are joined with a blank line (`"\n\n"`) between pages:
the always-OCR handler and the fallback handler's OCR branch emit exactly
the blocks of the pages whose stripped OCR text is non-empty, and the
fallback handler's text-layer branch emits exactly the blocks of the pages
whose stripped embedded text is non-empty. -/
lemma append_ocr_label_merge (x : String) :
    x ++ " (OCR)" ++ " ---\n" = x ++ " (OCR) ---\n" := by
  rw [String.append_assoc]
  exact congrArg (fun y => x ++ y) (by decide)

theorem c5_blank_pages_dropped (filename : String) (resps : List TextractResponse)
    (ts : List String) (pageTexts : List String)
    (hpdf : pyEndsWith (pyLower filename) ".pdf" = true)
    (hall : AllOk resps ts) :
    extract_text filename resps =
      .ok (String.intercalate "\n\n"
        (((enumFrom 1 ts).filter (fun p => !(pyStrip p.2 == ""))).map
          (fun p => "--- Page " ++ toString p.1 ++ " ---\n" ++ pyStrip p.2))) ∧
    (usesTextLayer pageTexts = false →
      extract_text_with_fallback filename pageTexts resps =
        .ok (String.intercalate "\n\n"
          (((enumFrom 1 ts).filter (fun p => !(pyStrip p.2 == ""))).map
            (fun p => "--- Page " ++ toString p.1 ++ " (OCR) ---\n" ++ pyStrip p.2)))) ∧
    (usesTextLayer pageTexts = true →
      extract_text_with_fallback filename pageTexts resps =
        .ok (String.intercalate "\n\n"
          (textLayerBlocks 1 ((pageTexts.map pyStrip).filter (fun t => !(t == "")))))) := by
  have hb1 := ocrBlocks_ok "" hall 1
  have hb2 := ocrBlocks_ok " (OCR)" hall 1
  rw [ocrBlocksSpec_eq_filterMap] at hb1 hb2
  refine ⟨?_, ?_, ?_⟩
  · simp [extract_text, hpdf, hb1, Except.map]
  · intro hf
    simp only [append_ocr_label_merge] at hb2
    simp [extract_text_with_fallback, hpdf, hf, hb2, Except.map]
  · intro ht
    simp [extract_text_with_fallback, hpdf, ht]

theorem c5_blank_pages_dropped_witness :
    extract_text "x.pdf"
        [.success [⟨"LINE", "HELLO", 99, "g"⟩], .success [], .success [⟨"LINE", "WORLD", 98, "g"⟩]] =
      .ok "--- Page 1 ---\nHELLO\n\n--- Page 3 ---\nWORLD" := by
  have h := (c5_blank_pages_dropped "x.pdf"
    [.success [⟨"LINE", "HELLO", 99, "g"⟩], .success [], .success [⟨"LINE", "WORLD", 98, "g"⟩]]
    ["HELLO", "", "WORLD"] [] (by decide)
    (List.Forall₂.cons (by decide)
      (List.Forall₂.cons (by decide) (List.Forall₂.cons (by decide) List.Forall₂.nil)))).1
  rw [h]
  decide

/-- C9: when every page's structured OCR call succeeds, the
`/extract-text-detailed/` handler emits exactly one entry per document page
— blank pages included — with `total_pages` equal to the document's full
page count, while the `/extract-text-json/` handler's `total_pages` counts
only the pages whose `raw_text` strips to a non-empty string. -/
theorem c9_detailed_keeps_blank_pages (filename : String) (resps : List TextractResponse)
    (prs : List PageResult)
    (hpdf : pyEndsWith (pyLower filename) ".pdf" = true)
    (hall : AllOkStructured resps prs) :
    (∃ out : DetailedBody,
      extract_text_detailed filename resps = .ok out ∧
      out.pages.length = resps.length ∧
      out.total_pages = resps.length ∧
      ∀ k, out.pages.get? k =
        (prs.get? k).map (fun pr => ⟨k + 1, pr.raw_text, pr.lines, pr.words⟩)) ∧
    (∃ jout : JsonBody,
      extract_text_json filename resps = .ok jout ∧
      jout.total_pages =
        ((prs.map (fun pr => pyStrip pr.raw_text)).filter (fun t => !(t == ""))).length) := by
  have hlen : resps.length = prs.length := List.Forall₂.length_eq hall
  constructor
  · refine ⟨⟨detailedSpec 1 prs, (detailedSpec 1 prs).length,
      "AWS Textract with structure analysis"⟩, ?_, ?_, ?_, ?_⟩
    · simp [extract_text_detailed, hpdf, detailedLoop_ok hall 1, Except.map]
    · simp [detailedSpec_length, hlen]
    · simp [detailedSpec_length, hlen]
    · intro k
      show (detailedSpec 1 prs).get? k = _
      rw [detailedSpec_get?]
      have h1k : 1 + k = k + 1 := by omega
      rw [h1k]
  · refine ⟨⟨String.intercalate "\n\n" (jsonPagesSpec 1 prs).2, (jsonPagesSpec 1 prs).1,
      (jsonPagesSpec 1 prs).1.length, "AWS Textract OCR", (jsonPagesSpec 1 prs).2⟩, ?_, ?_⟩
    · simp [extract_text_json, hpdf, jsonPagesLoop_ok hall 1]
    · show (jsonPagesSpec 1 prs).1.length = _
      exact jsonPagesSpec_fst_length prs 1

theorem c9_detailed_keeps_blank_pages_witness :
    ∃ out : DetailedBody,
      extract_text_detailed "x.pdf" [.success [], .success [⟨"LINE", "HI", 80, "g"⟩]] =
        .ok out ∧
      out.pages.length = 2 ∧ out.total_pages = 2 := by
  obtain ⟨⟨out, h1, h2, h3, -⟩, -⟩ :=
    c9_detailed_keeps_blank_pages "x.pdf" [.success [], .success [⟨"LINE", "HI", 80, "g"⟩]]
      [⟨"", [], []⟩, ⟨"HI", [⟨"HI", 80, "g"⟩], []⟩] (by decide)
      (List.Forall₂.cons (by decide) (List.Forall₂.cons (by decide) List.Forall₂.nil))
  exact ⟨out, h1, by simpa using h2, by simpa using h3⟩

/-- C10: at all four multipart endpoints the upload check lowercases the
filename before testing the `".pdf"` suffix: when the lowercased filename
does not end in `".pdf"` the request is rejected with the 400
"Only PDF files are supported." error, and when it does — for example for
`"DOC.PDF"` — that rejection error is never produced, whatever the provider
returns. -/
theorem c10_extension_check (filename good : String) (pageTexts : List String)
    (resps : List TextractResponse)
    (hrej : pyEndsWith (pyLower filename) ".pdf" = false)
    (hacc : pyEndsWith (pyLower good) ".pdf" = true) :
    extract_text filename resps = .error badInput ∧
    extract_text_with_fallback filename pageTexts resps = .error badInput ∧
    extract_text_json filename resps = .error badInput ∧
    extract_text_detailed filename resps = .error badInput ∧
    pyEndsWith (pyLower "DOC.PDF") ".pdf" = true ∧
    extract_text good resps ≠ .error badInput ∧
    extract_text_with_fallback good pageTexts resps ≠ .error badInput ∧
    extract_text_json good resps ≠ .error badInput ∧
    extract_text_detailed good resps ≠ .error badInput := by
  refine ⟨by simp [extract_text, hrej], by simp [extract_text_with_fallback, hrej],
    by simp [extract_text_json, hrej], by simp [extract_text_detailed, hrej],
    by decide, ?_, ?_, ?_, ?_⟩
  · intro hc
    rw [show extract_text good resps =
        Except.map (String.intercalate "\n\n") (ocrBlocks "" 1 resps) by
      simp [extract_text, hacc]] at hc
    cases hb : ocrBlocks "" 1 resps with
    | ok l =>
        rw [hb] at hc
        exact Except.noConfusion hc
    | error e =>
        rw [hb] at hc
        simp only [Except.map] at hc
        cases hc
        exact ocrBlocks_error_detail "" hb rfl
  · intro hc
    by_cases htl : usesTextLayer pageTexts = true
    · rw [show extract_text_with_fallback good pageTexts resps =
          .ok (String.intercalate "\n\n"
            (textLayerBlocks 1 ((pageTexts.map pyStrip).filter (fun t => !(t == ""))))) by
        simp [extract_text_with_fallback, hacc, htl]] at hc
      exact Except.noConfusion hc
    · rw [Bool.not_eq_true] at htl
      rw [show extract_text_with_fallback good pageTexts resps =
          Except.map (String.intercalate "\n\n") (ocrBlocks " (OCR)" 1 resps) by
        simp [extract_text_with_fallback, hacc, htl]] at hc
      cases hb : ocrBlocks " (OCR)" 1 resps with
      | ok l =>
          rw [hb] at hc
          exact Except.noConfusion hc
      | error e =>
          rw [hb] at hc
          simp only [Except.map] at hc
          cases hc
          exact ocrBlocks_error_detail " (OCR)" hb rfl
  · intro hc
    rw [show extract_text_json good resps =
        (match jsonPagesLoop 1 resps with
          | .error e => .error e
          | .ok pb =>
            .ok { extracted_text := String.intercalate "\n\n" pb.2
                  pages := pb.1
                  total_pages := pb.1.length
                  extraction_method := "AWS Textract OCR"
                  text_blocks := pb.2 }) by
      simp [extract_text_json, hacc]] at hc
    cases hb : jsonPagesLoop 1 resps with
    | ok pb =>
        rw [hb] at hc
        exact Except.noConfusion hc
    | error e =>
        rw [hb] at hc
        cases hc
        exact jsonPagesLoop_error_status hb rfl
  · intro hc
    rw [show extract_text_detailed good resps =
        Except.map (fun pages =>
          (⟨pages, pages.length, "AWS Textract with structure analysis"⟩ : DetailedBody))
          (detailedLoop 1 resps) by
      simp [extract_text_detailed, hacc]] at hc
    cases hb : detailedLoop 1 resps with
    | ok l =>
        rw [hb] at hc
        exact Except.noConfusion hc
    | error e =>
        rw [hb] at hc
        simp only [Except.map] at hc
        cases hc
        exact detailedLoop_error_status hb rfl

theorem c10_extension_check_witness :
    extract_text "doc.txt" [] = .error badInput ∧
    extract_text "DOC.PDF" [] ≠ .error badInput := by
  have h := c10_extension_check "doc.txt" "DOC.PDF" [] [] (by decide) (by decide)
  exact ⟨h.1, h.2.2.2.2.2.1⟩

end AiExtraction
